import Mathlib

/-!
Verification development for the solbot trading bot (src/solbot.py).

The embedding models the position-monitor loop (monitor_trade), the
telegram entry handler (handle_message), the swap wrapper (jupiter_swap)
and the aggregate-statistics bookkeeping, over exact rationals in place
of Python floats.  External effects (HTTP price reads, swap execution,
the post-close notification send, price-fetch exceptions) are passed in
as explicit oracle values, so every definition is a pure function of its
inputs, mirroring the branches of the Python source line for line —
including the path where the post-close send_message raises and the
break is skipped.
-/

namespace Solbot

/-- Configuration values read from the environment at startup
(src/solbot.py lines 26-32).  Prices and percentages are rationals. -/
structure Config where
  tpPct : ℚ
  slPct : ℚ
  trailingPct : ℚ
  tradeTimeout : ℚ
  tradeSolAmount : ℚ
deriving DecidableEq, Repr

/-- The configuration given by the env-var defaults in the source:
TAKE_PROFIT_PCT=50, STOP_LOSS_PCT=5, TRAILING_STOP_PCT=10,
TRADE_TIMEOUT=300, TRADE_SOL_AMOUNT=0.01. -/
def cfgDefault : Config :=
  { tpPct := 50, slPct := 5, trailingPct := 10, tradeTimeout := 300,
    tradeSolAmount := 1 / 100 }

/-- Python int() truncation toward zero, used for
lamports = int(TRADE_SOL_AMOUNT * 1e9) (src/solbot.py line 185).
For a rational q, q.num / q.den with Int division truncates toward zero. -/
def pyInt (q : ℚ) : ℤ := q.num / (q.den : ℤ)

/-- Outcome of one dexscreener price check as observed inside the
monitor loop: either a failure (request exception or an empty pairs
list, src/solbot.py lines 113-118 and 165-169) or a successfully parsed
price pairs[0].priceUsd (line 120). -/
inductive CheckResult where
  | failed : CheckResult
  | price : ℚ → CheckResult
deriving DecidableEq, Repr

/-- One iteration of the monitor loop: the check outcome, the wall-clock
time elapsed since entry at the moment the timeout condition would be
evaluated (time.time() - start_time, line 132), and two oracle values
that matter only if this check fires an exit: sellOk tells whether the
jupiter_swap SELL of line 136 returns a transaction id, and notifyOk
tells whether the post-close send_message of line 157 succeeds.  When
that send raises, the exception is caught at lines 165-169, the break on
line 163 is never reached, and the loop continues with the statistics
already mutated. -/
structure Check where
  result : CheckResult
  elapsed : ℚ
  sellOk : Bool
  notifyOk : Bool
deriving DecidableEq, Repr

/-- Percentage change relative to the entry price,
change = (price - entry_price) / entry_price * 100 if entry_price else 0
(src/solbot.py line 121; the same formula is reused for pnl_pct on
line 138 with exit_price = price). -/
def changePct (entry price : ℚ) : ℚ :=
  if entry = 0 then 0 else (price - entry) / entry * 100

/-- Peak-price update, if price > peak_price: peak_price = price
(src/solbot.py lines 122-123). -/
def updatePeak (peak price : ℚ) : ℚ :=
  if price > peak then price else peak

/-- The four exit reasons of the monitor.  The source records them as
formatted strings (TP hit / SL hit / Trailing SL hit / Timeout hit,
src/solbot.py lines 125-133); only the reason kind is modelled. -/
inductive ExitReason where
  | takeProfit : ExitReason
  | stopLoss : ExitReason
  | trailingStop : ExitReason
  | timeout : ExitReason
deriving DecidableEq, Repr

/-- The exit decision of one successful price check, translated branch
for branch from src/solbot.py lines 125-133.  The peak argument is the
already-updated peak price (the source updates peak_price on lines
122-123 before these comparisons). -/
def exitReason (cfg : Config) (entry peak price elapsed : ℚ) : Option ExitReason :=
  if changePct entry price ≥ cfg.tpPct then some ExitReason.takeProfit
  else if changePct entry price ≤ -cfg.slPct then some ExitReason.stopLoss
  else if price ≤ peak * (1 - cfg.trailingPct / 100) then some ExitReason.trailingStop
  else if elapsed ≥ cfg.tradeTimeout then some ExitReason.timeout
  else none

/-- One appended element of the trade_logs list
(src/solbot.py lines 146-154; the timestamp string is not modelled). -/
structure TradeLog where
  symbol : String
  entry_price : ℚ
  exit_price : ℚ
  pnl_pct : ℚ
  profit_in_sol : ℚ
  reason : ExitReason
deriving DecidableEq, Repr

/-- The global aggregate statistics of the process
(src/solbot.py lines 44-47). -/
structure Stats where
  trade_logs : List TradeLog
  total_pnl_sol : ℚ
  win_count : ℕ
  loss_count : ℕ
deriving DecidableEq, Repr

/-- Initial value of the aggregate statistics (src/solbot.py lines
44-47), also the value they are reset to by the daily summary
(line 217). -/
def statsInit : Stats :=
  { trade_logs := [], total_pnl_sol := 0, win_count := 0, loss_count := 0 }

/-- The statistics mutation performed when the monitor closes a trade at
the given exit price: pnl computation, pnl accumulation, win/loss
increment and the trade_logs append (src/solbot.py lines 137-154). -/
def closeTrade (cfg : Config) (symbol : String) (entry price : ℚ)
    (reason : ExitReason) (s : Stats) : Stats :=
  let pnl_pct := changePct entry price
  let profit_in_sol := cfg.tradeSolAmount * pnl_pct / 100
  { trade_logs := s.trade_logs ++
      [{ symbol := symbol, entry_price := entry, exit_price := price,
         pnl_pct := pnl_pct, profit_in_sol := profit_in_sol, reason := reason }]
    total_pnl_sol := s.total_pnl_sol + profit_in_sol
    win_count := if pnl_pct > 0 then s.win_count + 1 else s.win_count
    loss_count := if pnl_pct > 0 then s.loss_count else s.loss_count + 1 }

/-- One externally visible sell call of the monitor,
jupiter_swap(ca, SOL_MINT, amount_in_lamports, symbol, "SELL") at
src/solbot.py line 136; ok records whether the swap returned a
transaction id. -/
structure TradeAction where
  ca : String
  amount : ℤ
  ok : Bool
deriving DecidableEq, Repr

/-- The identifier-and-amount target of a sell action, forgetting the
swap outcome. -/
def sellTarget (a : TradeAction) : String × ℤ := (a.ca, a.amount)

/-- Result of one monitor run over a finite trace of checks: final peak
price, final statistics, emitted sell actions in order, and whether the
run reached the break on line 163 (position closed). -/
structure RunResult where
  peak : ℚ
  stats : Stats
  actions : List TradeAction
  closed : Bool
deriving DecidableEq, Repr

/-- Prepends a sell action to the action list of a run result, leaving
everything else unchanged; used for the path where the loop continues
after a close attempt whose notification raised. -/
def consAction (a : TradeAction) (r : RunResult) : RunResult :=
  { peak := r.peak, stats := r.stats, actions := a :: r.actions, closed := r.closed }

/-- The monitor loop of src/solbot.py lines 106-171, run over a finite
trace of price checks.  A failed check (empty pairs list or request
exception) changes nothing and continues (lines 114-118, 165-169): in
particular the timeout condition on line 132 is only reached on a
successful price read.  On a successful read the peak is updated first
(lines 122-123) and the exit conditions are evaluated (lines 125-133).
If one fires, the monitor sells once and mutates the statistics once
(lines 136-154) and then sends the close notification (line 157): when
that send succeeds the break on line 163 ends the run (closed), but when
it raises the exception handler of lines 165-169 swallows it and the
loop continues with the statistics already mutated and the break
skipped, so a later check can fire an exit again.  The per-check sellOk
and notifyOk oracles supply the outcomes of the sell swap and of the
notification send for a close attempt at that check. -/
def monitor_trade (cfg : Config) (ca symbol : String) (entry : ℚ) (amount : ℤ) :
    List Check → ℚ → Stats → RunResult
  | [], peak, s => { peak := peak, stats := s, actions := [], closed := false }
  | ⟨CheckResult.failed, _, _, _⟩ :: rest, peak, s =>
      monitor_trade cfg ca symbol entry amount rest peak s
  | ⟨CheckResult.price p, t, sOk, nOk⟩ :: rest, peak, s =>
      match exitReason cfg entry (updatePeak peak p) p t with
      | none => monitor_trade cfg ca symbol entry amount rest (updatePeak peak p) s
      | some r =>
          if nOk then
            { peak := updatePeak peak p,
              stats := closeTrade cfg symbol entry p r s,
              actions := [{ ca := ca, amount := amount, ok := sOk }],
              closed := true }
          else
            consAction { ca := ca, amount := amount, ok := sOk }
              (monitor_trade cfg ca symbol entry amount rest (updatePeak peak p)
                (closeTrade cfg symbol entry p r s))

/-- Whether some check of the trace fires an exit condition, scanning
with the same peak evolution as the monitor loop (independent of the
sell and notification oracles). -/
def monitorFires (cfg : Config) (entry : ℚ) : ℚ → List Check → Bool
  | _, [] => false
  | peak, ⟨CheckResult.failed, _, _, _⟩ :: rest => monitorFires cfg entry peak rest
  | peak, ⟨CheckResult.price p, t, _, _⟩ :: rest =>
      match exitReason cfg entry (updatePeak peak p) p t with
      | none => monitorFires cfg entry (updatePeak peak p) rest
      | some _ => true

/-- The prefix of the trace that the monitor actually processes: the
whole trace when no exit with a successful notification occurs,
otherwise everything up to and including the check whose close attempt
reached the break. -/
def processedTrace (cfg : Config) (entry : ℚ) : ℚ → List Check → List Check
  | _, [] => []
  | peak, ⟨CheckResult.failed, t, sOk, nOk⟩ :: rest =>
      ⟨CheckResult.failed, t, sOk, nOk⟩ :: processedTrace cfg entry peak rest
  | peak, ⟨CheckResult.price p, t, sOk, nOk⟩ :: rest =>
      match exitReason cfg entry (updatePeak peak p) p t with
      | none =>
          ⟨CheckResult.price p, t, sOk, nOk⟩ :: processedTrace cfg entry (updatePeak peak p) rest
      | some _ =>
          if nOk then [⟨CheckResult.price p, t, sOk, nOk⟩]
          else ⟨CheckResult.price p, t, sOk, nOk⟩ ::
            processedTrace cfg entry (updatePeak peak p) rest

/-- The successfully observed prices of a trace, in order. -/
def obsPrices : List Check → List ℚ
  | [] => []
  | ⟨CheckResult.failed, _, _, _⟩ :: rest => obsPrices rest
  | ⟨CheckResult.price p, _, _, _⟩ :: rest => p :: obsPrices rest

/-- Replaces the sell-swap outcome of a check by a fixed value, leaving
the price read, elapsed time and notification outcome unchanged; used to
state that the monitor's behavior does not depend on whether a sell
succeeded. -/
def withSellOk (b : Bool) (c : Check) : Check :=
  { c with sellOk := b }

/-- Take-profit condition of src/solbot.py line 126, change >= TP_PCT,
written from the spec wording for the refinement statement of C4. -/
def tp_cond (cfg : Config) (entry price : ℚ) : Bool :=
  decide (changePct entry price ≥ cfg.tpPct)

/-- Stop-loss condition of src/solbot.py line 128, change <= -SL_PCT. -/
def sl_cond (cfg : Config) (entry price : ℚ) : Bool :=
  decide (changePct entry price ≤ -cfg.slPct)

/-- Trailing-stop condition of src/solbot.py line 130,
price <= peak_price * (1 - TRAILING_SL_PCT / 100), against the
already-updated peak. -/
def trail_cond (cfg : Config) (peak price : ℚ) : Bool :=
  decide (price ≤ peak * (1 - cfg.trailingPct / 100))

/-- Timeout condition of src/solbot.py line 132,
time.time() - start_time >= TRADE_TIMEOUT. -/
def timeout_cond (cfg : Config) (elapsed : ℚ) : Bool :=
  decide (elapsed ≥ cfg.tradeTimeout)

/-- First true condition of an ordered list wins; the spec-side
tie-break policy of section 4.3 of the spec. -/
def firstHit : List (Bool × ExitReason) → Option ExitReason
  | [] => none
  | (b, r) :: rest => if b then some r else firstHit rest

/-- A configuration on which the take-profit and stop-loss conditions
can hold simultaneously (a negative take-profit threshold), used to
witness the tie-break of C4. -/
def cfgTie : Config :=
  { tpPct := -10, slPct := 5, trailingPct := 10, tradeTimeout := 300,
    tradeSolAmount := 1 / 100 }

/-- The four possible outcomes of jupiter_swap as an oracle value
(src/solbot.py lines 78-103): the quote returns no route (lines 86-88),
the swap endpoint returns no transaction (lines 95-97), an exception is
raised (lines 102-103), or a transaction id comes back (line 101). -/
inductive SwapOutcome where
  | noRoute : SwapOutcome
  | swapTxError : String → SwapOutcome
  | exn : String → SwapOutcome
  | success : String → SwapOutcome
deriving DecidableEq, Repr

/-- The return value (txid option, user message) of jupiter_swap for
each outcome, with the exact message strings of src/solbot.py lines
88, 97, 101 and 103.  The swapTxError branch interpolates only the raw
response, and the success branch ends with the transaction id. -/
def jupiter_swap (outcome : SwapOutcome) (symbol action : String) :
    Option String × String :=
  match outcome with
  | SwapOutcome.noRoute => (none, "No route for " ++ symbol ++ " " ++ action)
  | SwapOutcome.swapTxError d => (none, "Swap tx error " ++ d)
  | SwapOutcome.exn d => (none, action ++ " failed " ++ symbol ++ ": " ++ d)
  | SwapOutcome.success txid => (some txid, action ++ " " ++ symbol ++ " | Tx: " ++ txid)

/-- Display symbol of a message: the upper-cased regex capture when the
text contains a dollar-symbol, otherwise UNKNOWN (src/solbot.py
line 183). -/
def symbolOf : Option String → String
  | some s => s.toUpper
  | none => "UNKNOWN"

/-- One spawned monitor_trade task with the arguments passed on
src/solbot.py lines 195-197. -/
structure MonitorTask where
  ca : String
  symbol : String
  entry_price : ℚ
  amount : ℤ
deriving DecidableEq, Repr

/-- Process-level state relevant to the entry handler: the list of
monitor tasks spawned so far.  The source keeps no registry of past or
open identifiers; this list only records what create_task was called
with. -/
structure BotState where
  monitors : List MonitorTask
deriving DecidableEq, Repr

/-- The process state before any message is handled. -/
def botInit : BotState := { monitors := [] }

/-- The telegram entry handler of src/solbot.py lines 174-199.  The
regex extraction results are passed in as ca_match and sym_match; the
buy-swap outcome and the dexscreener entry-price fetch (Except.error
models the exception branch of lines 198-199, and Except.ok 0 models a
missing or falsy priceUsd on line 192) are oracle inputs.  Returns the
new state and the replies sent to the user, in order. -/
def handle_message (cfg : Config) (ca_match sym_match : Option String)
    (buy : SwapOutcome) (priceFetch : Except String ℚ) (st : BotState) :
    BotState × List String :=
  match ca_match with
  | none => (st, ["No contract address found in message."])
  | some ca =>
      match jupiter_swap buy (symbolOf sym_match) "BUY" with
      | (none, msg) => (st, [msg])
      | (some _, msg) =>
          match priceFetch with
          | Except.error e =>
              (st, [msg, "Could not fetch entry price for " ++ symbolOf sym_match ++ ": " ++ e])
          | Except.ok entry_price =>
              ({ monitors := st.monitors ++
                  [{ ca := ca, symbol := symbolOf sym_match, entry_price := entry_price,
                     amount := pyInt (cfg.tradeSolAmount * 1000000000) }] }, [msg])

/-- Whether the needle character list occurs contiguously inside the
haystack character list. -/
def occursInList (n : List Char) : List Char → Bool
  | [] => n.isEmpty
  | c :: t => n.isPrefixOf (c :: t) || occursInList n t

/-- Whether the needle string occurs as a substring of the haystack. -/
def occursIn (needle haystack : String) : Bool :=
  occursInList needle.data haystack.data

/-- The two operations that ever mutate the aggregate statistics: a
trade close (src/solbot.py lines 137-154) and the daily-summary reset
(line 217). -/
inductive StatsEvent where
  | close : Config → String → ℚ → ℚ → ExitReason → StatsEvent
  | reset : StatsEvent
deriving Repr

/-- Application of one statistics event to the global statistics. -/
def applyEvent (s : Stats) : StatsEvent → Stats
  | StatsEvent.close cfg sym entry price r => closeTrade cfg sym entry price r s
  | StatsEvent.reset => statsInit

/-- Mutual consistency of the aggregate statistics: the number of
recorded trades equals wins plus losses, and the cumulative pnl is the
sum of the per-trade profits in the log. -/
def consistent (s : Stats) : Prop :=
  s.trade_logs.length = s.win_count + s.loss_count ∧
  s.total_pnl_sol = (s.trade_logs.map TradeLog.profit_in_sol).sum

/-! Helper lemmas shared by the claim theorems. -/

theorem updatePeak_eq_max (q p : ℚ) : updatePeak q p = max q p := by
  unfold updatePeak
  rcases lt_trichotomy q p with h | h | h
  · rw [if_pos h, max_eq_right h.le]
  · subst h; simp
  · rw [if_neg (not_lt_of_gt h), max_eq_left h.le]

theorem le_updatePeak (q p : ℚ) : q ≤ updatePeak q p := by
  rw [updatePeak_eq_max]; exact le_max_left q p

theorem le_foldl_max (l : List ℚ) : ∀ a : ℚ, a ≤ l.foldl max a := by
  induction l with
  | nil => intro a; exact le_refl a
  | cons x xs ih =>
      intro a
      calc a ≤ max a x := le_max_left a x
        _ ≤ (x :: xs).foldl max a := ih (max a x)

theorem closeTrade_logs_length (cfg : Config) (sym : String) (entry price : ℚ)
    (r : ExitReason) (s : Stats) :
    (closeTrade cfg sym entry price r s).trade_logs.length = s.trade_logs.length + 1 := by
  simp [closeTrade]

theorem closeTrade_winloss (cfg : Config) (sym : String) (entry price : ℚ)
    (r : ExitReason) (s : Stats) :
    (closeTrade cfg sym entry price r s).win_count +
      (closeTrade cfg sym entry price r s).loss_count =
      s.win_count + s.loss_count + 1 := by
  by_cases hp : changePct entry price > 0 <;> simp [closeTrade, hp] <;> omega

theorem run_accounting (cfg : Config) (ca sym : String) (entry : ℚ) (amount : ℤ) :
    ∀ (checks : List Check) (peak : ℚ) (s : Stats),
    (monitor_trade cfg ca sym entry amount checks peak s).stats.trade_logs.length =
      s.trade_logs.length +
        (monitor_trade cfg ca sym entry amount checks peak s).actions.length ∧
    (monitor_trade cfg ca sym entry amount checks peak s).stats.win_count +
      (monitor_trade cfg ca sym entry amount checks peak s).stats.loss_count =
      s.win_count + s.loss_count +
        (monitor_trade cfg ca sym entry amount checks peak s).actions.length ∧
    (∀ a ∈ (monitor_trade cfg ca sym entry amount checks peak s).actions,
      a.ca = ca ∧ a.amount = amount) := by
  intro checks
  induction checks with
  | nil => intro peak s; simp [monitor_trade]
  | cons c rest ih =>
      intro peak s
      obtain ⟨cr, t, sOk, nOk⟩ := c
      cases cr with
      | failed => simpa [monitor_trade] using ih peak s
      | price p =>
          rcases hx : exitReason cfg entry (updatePeak peak p) p t with _ | r
          · simpa [monitor_trade, hx] using ih (updatePeak peak p) s
          · cases nOk with
            | true =>
                refine ⟨?_, ?_, ?_⟩
                · simp [monitor_trade, hx, closeTrade_logs_length]
                · simpa [monitor_trade, hx] using
                    closeTrade_winloss cfg sym entry p r s
                · simp [monitor_trade, hx]
            | false =>
                obtain ⟨ih1, ih2, ih3⟩ := ih (updatePeak peak p) (closeTrade cfg sym entry p r s)
                refine ⟨?_, ?_, ?_⟩
                · simp only [monitor_trade, hx, consAction, Bool.false_eq_true, if_false,
                    List.length_cons]
                  rw [ih1, closeTrade_logs_length]
                  omega
                · simp only [monitor_trade, hx, consAction, Bool.false_eq_true, if_false,
                    List.length_cons]
                  rw [ih2]
                  have := closeTrade_winloss cfg sym entry p r s
                  omega
                · simp only [monitor_trade, hx, consAction, Bool.false_eq_true, if_false]
                  intro a ha
                  rcases List.mem_cons.mp ha with h | h
                  · subst h; exact ⟨rfl, rfl⟩
                  · exact ih3 a h

theorem run_peak_spec (cfg : Config) (ca sym : String) (entry : ℚ) (amount : ℤ) :
    ∀ (checks : List Check) (peak : ℚ) (s : Stats),
    (monitor_trade cfg ca sym entry amount checks peak s).peak =
      List.foldl max peak (obsPrices (processedTrace cfg entry peak checks)) ∧
    peak ≤ (monitor_trade cfg ca sym entry amount checks peak s).peak := by
  intro checks
  induction checks with
  | nil => intro peak s; simp [monitor_trade, processedTrace, obsPrices]
  | cons c rest ih =>
      intro peak s
      obtain ⟨cr, t, sOk, nOk⟩ := c
      cases cr with
      | failed =>
          simpa [monitor_trade, processedTrace, obsPrices] using ih peak s
      | price p =>
          rcases hx : exitReason cfg entry (updatePeak peak p) p t with _ | r
          · obtain ⟨ih1, ih2⟩ := ih (updatePeak peak p) s
            constructor
            · simp only [monitor_trade, processedTrace, obsPrices, hx, List.foldl_cons]
              rw [← updatePeak_eq_max]
              exact ih1
            · calc peak ≤ updatePeak peak p := le_updatePeak peak p
                _ ≤ (monitor_trade cfg ca sym entry amount
                      (⟨CheckResult.price p, t, sOk, nOk⟩ :: rest) peak s).peak := by
                    simpa [monitor_trade, hx] using ih2
          · cases nOk with
            | true =>
                constructor
                · simp only [monitor_trade, processedTrace, obsPrices, hx, if_true,
                    List.foldl_cons, List.foldl_nil]
                  rw [← updatePeak_eq_max]
                · simpa [monitor_trade, hx] using le_updatePeak peak p
            | false =>
                obtain ⟨ih1, ih2⟩ := ih (updatePeak peak p) (closeTrade cfg sym entry p r s)
                constructor
                · simp only [monitor_trade, processedTrace, obsPrices, hx,
                    Bool.false_eq_true, if_false, consAction, List.foldl_cons]
                  rw [← updatePeak_eq_max]
                  exact ih1
                · calc peak ≤ updatePeak peak p := le_updatePeak peak p
                    _ ≤ (monitor_trade cfg ca sym entry amount
                          (⟨CheckResult.price p, t, sOk, false⟩ :: rest) peak s).peak := by
                        simpa [monitor_trade, hx, consAction] using ih2

theorem run_notify_ok (cfg : Config) (ca sym : String) (entry : ℚ) (amount : ℤ) :
    ∀ (checks : List Check) (peak : ℚ) (s : Stats),
    (∀ c ∈ checks, c.notifyOk = true) →
    (monitor_trade cfg ca sym entry amount checks peak s).closed =
      monitorFires cfg entry peak checks ∧
    (monitor_trade cfg ca sym entry amount checks peak s).actions.map sellTarget =
      (if monitorFires cfg entry peak checks then [(ca, amount)] else []) ∧
    (monitor_trade cfg ca sym entry amount checks peak s).stats.trade_logs.length =
      s.trade_logs.length + (if monitorFires cfg entry peak checks then 1 else 0) ∧
    (monitorFires cfg entry peak checks = false →
      (monitor_trade cfg ca sym entry amount checks peak s).stats = s) := by
  intro checks
  induction checks with
  | nil =>
      intro peak s _
      simp [monitor_trade, monitorFires]
  | cons c rest ih =>
      intro peak s hN
      obtain ⟨cr, t, sOk, nOk⟩ := c
      have hrest : ∀ c ∈ rest, c.notifyOk = true :=
        fun c hc => hN c (List.mem_cons_of_mem _ hc)
      cases cr with
      | failed =>
          simpa [monitor_trade, monitorFires] using ih peak s hrest
      | price p =>
          have hn : nOk = true := hN ⟨CheckResult.price p, t, sOk, nOk⟩ (List.mem_cons_self _ _)
          subst hn
          rcases hx : exitReason cfg entry (updatePeak peak p) p t with _ | r
          · simpa [monitor_trade, monitorFires, hx] using ih (updatePeak peak p) s hrest
          · refine ⟨?_, ?_, ?_, ?_⟩
            · simp [monitor_trade, monitorFires, hx]
            · simp [monitor_trade, monitorFires, hx, sellTarget]
            · simp [monitor_trade, monitorFires, hx, closeTrade_logs_length]
            · intro hf
              exfalso
              simp [monitorFires, hx] at hf

theorem run_append_closed (cfg : Config) (ca sym : String) (entry : ℚ) (amount : ℤ) :
    ∀ (checks more : List Check) (peak : ℚ) (s : Stats),
    (monitor_trade cfg ca sym entry amount checks peak s).closed = true →
    monitor_trade cfg ca sym entry amount (checks ++ more) peak s =
      monitor_trade cfg ca sym entry amount checks peak s := by
  intro checks
  induction checks with
  | nil => intro more peak s h; simp [monitor_trade] at h
  | cons c rest ih =>
      intro more peak s h
      obtain ⟨cr, t, sOk, nOk⟩ := c
      cases cr with
      | failed =>
          simp only [List.cons_append, monitor_trade] at h ⊢
          exact ih more peak s h
      | price p =>
          rcases hx : exitReason cfg entry (updatePeak peak p) p t with _ | r
          · simp only [List.cons_append, monitor_trade, hx] at h ⊢
            exact ih more (updatePeak peak p) s h
          · cases nOk with
            | true => simp only [List.cons_append, monitor_trade, hx, if_true]
            | false =>
                simp only [List.cons_append, List.append_eq, monitor_trade, hx,
                  Bool.false_eq_true, if_false, consAction] at h ⊢
                rw [ih more (updatePeak peak p) (closeTrade cfg sym entry p r s) h]

theorem run_all_failed (cfg : Config) (ca sym : String) (entry : ℚ) (amount : ℤ) :
    ∀ (checks : List Check) (peak : ℚ) (s : Stats),
    (∀ c ∈ checks, c.result = CheckResult.failed) →
    monitor_trade cfg ca sym entry amount checks peak s =
      { peak := peak, stats := s, actions := [], closed := false } := by
  intro checks
  induction checks with
  | nil => intro peak s _; rfl
  | cons c rest ih =>
      intro peak s h
      obtain ⟨cr, t, sOk, nOk⟩ := c
      have hc : cr = CheckResult.failed :=
        h ⟨cr, t, sOk, nOk⟩ (List.mem_cons_self _ _)
      subst hc
      simp only [monitor_trade]
      exact ih peak s (fun c hc2 => h c (List.mem_cons_of_mem _ hc2))

theorem run_sellOk_invariant (cfg : Config) (ca sym : String) (entry : ℚ) (amount : ℤ)
    (b : Bool) : ∀ (checks : List Check) (peak : ℚ) (s : Stats),
    (monitor_trade cfg ca sym entry amount (checks.map (withSellOk b)) peak s).stats =
      (monitor_trade cfg ca sym entry amount checks peak s).stats ∧
    (monitor_trade cfg ca sym entry amount (checks.map (withSellOk b)) peak s).peak =
      (monitor_trade cfg ca sym entry amount checks peak s).peak ∧
    (monitor_trade cfg ca sym entry amount (checks.map (withSellOk b)) peak s).closed =
      (monitor_trade cfg ca sym entry amount checks peak s).closed ∧
    (monitor_trade cfg ca sym entry amount (checks.map (withSellOk b)) peak s).actions.map
        sellTarget =
      (monitor_trade cfg ca sym entry amount checks peak s).actions.map sellTarget := by
  intro checks
  induction checks with
  | nil => intro peak s; simp [monitor_trade]
  | cons c rest ih =>
      intro peak s
      obtain ⟨cr, t, sOk, nOk⟩ := c
      cases cr with
      | failed =>
          simpa [monitor_trade, withSellOk] using ih peak s
      | price p =>
          rcases hx : exitReason cfg entry (updatePeak peak p) p t with _ | r
          · simpa [monitor_trade, withSellOk, hx] using ih (updatePeak peak p) s
          · cases nOk with
            | true => simp [monitor_trade, withSellOk, hx, sellTarget]
            | false =>
                obtain ⟨ih1, ih2, ih3, ih4⟩ := ih (updatePeak peak p)
                  (closeTrade cfg sym entry p r s)
                refine ⟨?_, ?_, ?_, ?_⟩
                · simpa [monitor_trade, withSellOk, hx, consAction] using ih1
                · simpa [monitor_trade, withSellOk, hx, consAction] using ih2
                · simpa [monitor_trade, withSellOk, hx, consAction] using ih3
                · simpa [monitor_trade, withSellOk, hx, consAction, sellTarget] using ih4

theorem consistent_statsInit : consistent statsInit := by
  simp [consistent, statsInit]

theorem consistent_applyEvent (s : Stats) (e : StatsEvent) :
    consistent s → consistent (applyEvent s e) := by
  rintro ⟨h1, h2⟩
  cases e with
  | reset => exact consistent_statsInit
  | close cfg sym entry price r =>
      constructor
      · simp only [applyEvent, closeTrade, List.length_append, List.length_singleton, h1]
        by_cases hp : changePct entry price > 0 <;> simp [hp] <;> omega
      · simp [applyEvent, closeTrade, h2]

theorem foldl_consistent : ∀ (events : List StatsEvent) (s : Stats),
    consistent s → consistent (List.foldl applyEvent s events) := by
  intro events
  induction events with
  | nil => intro s h; exact h
  | cons e rest ih =>
      intro s h
      exact ih (applyEvent s e) (consistent_applyEvent s e h)

/-! Claim theorems. -/

/-- C1: evaluation of the monitor at the failing input.  The first
successful read fires take-profit, the sell and statistics update run,
but the post-close notification raises, so the break is skipped; the
second successful read fires take-profit again, and the monitor ends
having issued two sell actions, appended two trade records and bumped
the win/loss counters twice for the same position — contradicting the
exactly-once-and-terminate guarantee the claim states. -/
theorem monitor_trade_double_close :
    (monitor_trade cfgDefault "mintH" "SYMH" 1 10000000
        [⟨CheckResult.price 2, 0, true, false⟩, ⟨CheckResult.price 2, 30, true, true⟩]
        1 statsInit).actions.length = 2 ∧
    (monitor_trade cfgDefault "mintH" "SYMH" 1 10000000
        [⟨CheckResult.price 2, 0, true, false⟩, ⟨CheckResult.price 2, 30, true, true⟩]
        1 statsInit).stats.trade_logs.length = 2 ∧
    (monitor_trade cfgDefault "mintH" "SYMH" 1 10000000
        [⟨CheckResult.price 2, 0, true, false⟩, ⟨CheckResult.price 2, 30, true, true⟩]
        1 statsInit).stats.win_count +
      (monitor_trade cfgDefault "mintH" "SYMH" 1 10000000
        [⟨CheckResult.price 2, 0, true, false⟩, ⟨CheckResult.price 2, 30, true, true⟩]
        1 statsInit).stats.loss_count = 2 ∧
    (monitor_trade cfgDefault "mintH" "SYMH" 1 10000000
        [⟨CheckResult.price 2, 0, true, false⟩, ⟨CheckResult.price 2, 30, true, true⟩]
        1 statsInit).closed = true := by
  norm_num [monitor_trade, exitReason, changePct, updatePeak, cfgDefault, closeTrade,
    consAction, statsInit]

/-- C2 counterexample: two identical entry signals for the same
identifier are both acted on: after the second handle_message call the
spawned-monitor list holds the same contract address twice, so a
duplicate entry signal is not rejected. -/
theorem handle_message_duplicate_entry_counterexample :
    ((handle_message cfgDefault (some "9WzDXwBbmkg8ZTbNMqUxvQRAyrZzDsGYdLVL9zYtAWWM") none
        (SwapOutcome.success "tx2") (Except.ok 1)
        (handle_message cfgDefault (some "9WzDXwBbmkg8ZTbNMqUxvQRAyrZzDsGYdLVL9zYtAWWM") none
          (SwapOutcome.success "tx1") (Except.ok 1) botInit).1).1.monitors.map
      MonitorTask.ca).count "9WzDXwBbmkg8ZTbNMqUxvQRAyrZzDsGYdLVL9zYtAWWM" = 2 := by
  rfl

/-- C2 amended: handle_message keeps no record of past identifiers:
every successful buy with a fetched entry price appends a new monitor
task for that identifier, whatever the current state holds, so duplicate
entry signals for an already-open identifier spawn a second monitor
instead of being rejected. -/
theorem handle_message_no_dedup (cfg : Config) (ca : String) (symM : Option String)
    (txid : String) (p : ℚ) (st : BotState) :
    (handle_message cfg (some ca) symM (SwapOutcome.success txid) (Except.ok p) st).1.monitors
      = st.monitors ++
        [{ ca := ca, symbol := symbolOf symM, entry_price := p,
           amount := pyInt (cfg.tradeSolAmount * 1000000000) }] ∧
    (handle_message cfg (some ca) symM (SwapOutcome.success txid) (Except.ok p) st).2 =
      [(jupiter_swap (SwapOutcome.success txid) (symbolOf symM) "BUY").2] :=
  ⟨rfl, rfl⟩

/-- C3 counterexample: with the default 300-second timeout and a trace
of only failed price reads whose elapsed times are far past the timeout,
the monitor never exits and issues no sell, so the timeout exit does not
fire without a successful price read. -/
theorem monitor_trade_timeout_starvation_counterexample :
    (monitor_trade cfgDefault "mintB" "SYMB" 1 10000000
        [⟨CheckResult.failed, 400, true, true⟩, ⟨CheckResult.failed, 700, true, true⟩]
        1 statsInit).closed = false ∧
    (monitor_trade cfgDefault "mintB" "SYMB" 1 10000000
        [⟨CheckResult.failed, 400, true, true⟩, ⟨CheckResult.failed, 700, true, true⟩]
        1 statsInit).actions = [] ∧
    cfgDefault.tradeTimeout ≤ 400 :=
  ⟨rfl, rfl, by norm_num [cfgDefault]⟩

/-- C3 amended: a failed or empty price read never mutates the peak
price, the statistics, or the emitted actions, but it also skips every
exit condition including the timeout: a trace consisting only of failed
reads never fires any exit, however large the elapsed time, so a fully
stuck feed starves the timeout instead of eventually triggering it. -/
theorem monitor_trade_failed_reads (cfg : Config) (ca sym : String) (entry : ℚ)
    (amount : ℤ) (t : ℚ) (sOk nOk : Bool) (rest checks : List Check) (peak : ℚ)
    (s : Stats) :
    monitor_trade cfg ca sym entry amount (⟨CheckResult.failed, t, sOk, nOk⟩ :: rest) peak s =
      monitor_trade cfg ca sym entry amount rest peak s ∧
    ((∀ c ∈ checks, c.result = CheckResult.failed) →
      monitor_trade cfg ca sym entry amount checks peak s =
        { peak := peak, stats := s, actions := [], closed := false }) :=
  ⟨rfl, run_all_failed cfg ca sym entry amount checks peak s⟩

/-- Witness for C3 at a concrete all-failed trace past the timeout. -/
theorem monitor_trade_failed_reads_witness :
    monitor_trade cfgDefault "mintC" "SYMC" 1 10000000
        [⟨CheckResult.failed, 400, true, true⟩, ⟨CheckResult.failed, 700, true, true⟩]
        1 statsInit =
      { peak := 1, stats := statsInit, actions := [], closed := false } :=
  (monitor_trade_failed_reads cfgDefault "mintC" "SYMC" 1 10000000 0 true true []
      [⟨CheckResult.failed, 400, true, true⟩, ⟨CheckResult.failed, 700, true, true⟩]
      1 statsInit).2
    (by simp)

/-- C4: the exit decision equals the first true condition of the fixed
order take-profit, stop-loss, trailing-stop, timeout; in particular when
the take-profit and stop-loss conditions hold simultaneously the reason
is take-profit. -/
theorem exitReason_priority_order (cfg : Config) (entry peak price elapsed : ℚ) :
    exitReason cfg entry peak price elapsed =
      firstHit [(tp_cond cfg entry price, ExitReason.takeProfit),
        (sl_cond cfg entry price, ExitReason.stopLoss),
        (trail_cond cfg peak price, ExitReason.trailingStop),
        (timeout_cond cfg elapsed, ExitReason.timeout)] ∧
    (tp_cond cfg entry price = true → sl_cond cfg entry price = true →
      exitReason cfg entry peak price elapsed = some ExitReason.takeProfit) := by
  constructor
  · simp only [exitReason, firstHit, tp_cond, sl_cond, trail_cond, timeout_cond]
    by_cases h1 : changePct entry price ≥ cfg.tpPct <;>
      by_cases h2 : changePct entry price ≤ -cfg.slPct <;>
        by_cases h3 : price ≤ peak * (1 - cfg.trailingPct / 100) <;>
          by_cases h4 : elapsed ≥ cfg.tradeTimeout <;>
            simp [h1, h2, h3, h4]
  · intro h1 _
    simp only [tp_cond, decide_eq_true_eq] at h1
    simp [exitReason, h1]

/-- Witness for C4: a configuration on which the take-profit and
stop-loss conditions are simultaneously true, and the reason is
take-profit. -/
theorem exitReason_priority_order_witness :
    exitReason cfgTie 1 1 (9 / 10) 0 = some ExitReason.takeProfit :=
  (exitReason_priority_order cfgTie 1 1 (9 / 10) 0).2
    (by norm_num [tp_cond, changePct, cfgTie]) (by norm_num [sl_cond, changePct, cfgTie])

/-- C5: the peak price update is exactly max(peak, price); across a run
the final peak equals the fold of max over the entry-initialised peak
and all successfully observed prices of the processed trace; the peak is
non-decreasing; and on a successful check the exit decision of that same
check is taken against the already-updated peak max(peak, price). -/
theorem monitor_trade_peak_is_max (cfg : Config) (ca sym : String) (entry : ℚ)
    (amount : ℤ) (checks : List Check) (peak : ℚ) (s : Stats) :
    (∀ q p : ℚ, updatePeak q p = max q p) ∧
    (monitor_trade cfg ca sym entry amount checks peak s).peak =
      List.foldl max peak (obsPrices (processedTrace cfg entry peak checks)) ∧
    peak ≤ (monitor_trade cfg ca sym entry amount checks peak s).peak ∧
    (∀ (p t : ℚ) (sOk : Bool) (r : ExitReason) (rest : List Check),
      exitReason cfg entry (max peak p) p t = some r →
      monitor_trade cfg ca sym entry amount
          (⟨CheckResult.price p, t, sOk, true⟩ :: rest) peak s =
        { peak := max peak p, stats := closeTrade cfg sym entry p r s,
          actions := [{ ca := ca, amount := amount, ok := sOk }], closed := true }) := by
  obtain ⟨h1, h2⟩ := run_peak_spec cfg ca sym entry amount checks peak s
  refine ⟨updatePeak_eq_max, h1, h2, ?_⟩
  intro p t sOk r rest hx
  simp [monitor_trade, updatePeak_eq_max, hx]

/-- Witness for C5 at a concrete check that fires take-profit against
the updated peak. -/
theorem monitor_trade_peak_is_max_witness :
    monitor_trade cfgDefault "mintF" "SYMF" 1 10000000
        [⟨CheckResult.price 2, 0, true, true⟩] 1 statsInit =
      { peak := max 1 2, stats := closeTrade cfgDefault "SYMF" 1 2 ExitReason.takeProfit statsInit,
        actions := [{ ca := "mintF", amount := 10000000, ok := true }], closed := true } :=
  (monitor_trade_peak_is_max cfgDefault "mintF" "SYMF" 1 10000000 [] 1
      statsInit).2.2.2 2 0 true ExitReason.takeProfit []
    (by norm_num [exitReason, changePct, cfgDefault])

/-- C6 counterexample: a run in which the sell swap fails (returns no
transaction id) but the close notification succeeds emits exactly one
sell attempt, records the trade and terminates, ignoring the following
check: the close attempt is not retried in response to the sell
failure. -/
theorem monitor_trade_sell_failure_counterexample :
    monitor_trade cfgDefault "mintE" "SYME" 1 10000000
        [⟨CheckResult.price 2, 0, false, true⟩, ⟨CheckResult.price 2, 30, false, true⟩]
        1 statsInit =
      { peak := updatePeak 1 2,
        stats := closeTrade cfgDefault "SYME" 1 2 ExitReason.takeProfit statsInit,
        actions := [{ ca := "mintE", amount := 10000000, ok := false }],
        closed := true } := by
  norm_num [monitor_trade, exitReason, changePct, cfgDefault]

/-- C6 amended: the monitor never retries a close in response to a
failed sell: the sell outcome has no influence whatsoever on the
monitor's behavior — replacing every check's sell outcome leaves the
statistics, the final peak, the termination flag and the targets of all
sell attempts unchanged — and when the post-close notification succeeds
the run makes at most one sell attempt and, if it closed, terminates
after that single (possibly failed) attempt with exactly one trade
recorded, leaving a failed-sell position unclosed.  A further sell can
arise only through the notification-failure path, which re-enters the
loop regardless of the sell outcome. -/
theorem monitor_trade_sell_failure_no_retry (cfg : Config) (ca sym : String)
    (entry : ℚ) (amount : ℤ) (checks : List Check) (peak : ℚ) (s : Stats) (b : Bool) :
    ((monitor_trade cfg ca sym entry amount (checks.map (withSellOk b)) peak s).stats =
        (monitor_trade cfg ca sym entry amount checks peak s).stats ∧
      (monitor_trade cfg ca sym entry amount (checks.map (withSellOk b)) peak s).peak =
        (monitor_trade cfg ca sym entry amount checks peak s).peak ∧
      (monitor_trade cfg ca sym entry amount (checks.map (withSellOk b)) peak s).closed =
        (monitor_trade cfg ca sym entry amount checks peak s).closed ∧
      (monitor_trade cfg ca sym entry amount
          (checks.map (withSellOk b)) peak s).actions.map sellTarget =
        (monitor_trade cfg ca sym entry amount checks peak s).actions.map sellTarget) ∧
    ((∀ c ∈ checks, c.notifyOk = true) →
      (monitor_trade cfg ca sym entry amount checks peak s).actions.length ≤ 1 ∧
      ((monitor_trade cfg ca sym entry amount checks peak s).closed = true →
        (monitor_trade cfg ca sym entry amount checks peak s).actions.map sellTarget =
          [(ca, amount)] ∧
        (monitor_trade cfg ca sym entry amount checks peak s).stats.trade_logs.length =
          s.trade_logs.length + 1)) := by
  refine ⟨run_sellOk_invariant cfg ca sym entry amount b checks peak s, ?_⟩
  intro hN
  obtain ⟨h1, h2, h3, _⟩ := run_notify_ok cfg ca sym entry amount checks peak s hN
  constructor
  · have hlen : (monitor_trade cfg ca sym entry amount checks peak s).actions.length =
        ((monitor_trade cfg ca sym entry amount checks peak s).actions.map
          sellTarget).length := by
      rw [List.length_map]
    rw [hlen, h2]
    split <;> simp
  · intro hc
    have hf : monitorFires cfg entry peak checks = true := h1.symm.trans hc
    constructor
    · rw [h2, hf]; rfl
    · rw [h3, hf]; rfl

/-- Witness for C6 at a concrete run with a failing sell swap and a
successful close notification. -/
theorem monitor_trade_sell_failure_no_retry_witness :
    (monitor_trade cfgDefault "mintD" "SYMD" 1 10000000
        [⟨CheckResult.price 3, 0, false, true⟩] 1 statsInit).actions.map sellTarget =
      [("mintD", 10000000)] ∧
    (monitor_trade cfgDefault "mintD" "SYMD" 1 10000000
        [⟨CheckResult.price 3, 0, false, true⟩] 1 statsInit).stats.trade_logs.length =
      statsInit.trade_logs.length + 1 :=
  ((monitor_trade_sell_failure_no_retry cfgDefault "mintD" "SYMD" 1 10000000
      [⟨CheckResult.price 3, 0, false, true⟩] 1 statsInit true).2 (by simp)).2
    (by norm_num [monitor_trade, exitReason, changePct, cfgDefault])

/-- C7: evaluation of the entry handler at the failing input: the buy
succeeds and dexscreener yields priceUsd 0, and handle_message spawns a
monitor task whose entry price is 0 instead of aborting position
creation, contrary to the strictly-positive entry-price requirement. -/
theorem handle_message_zero_entry_price_bug :
    (handle_message cfgDefault (some "7bYsgLcVSxQbbQcFnFeXqDMDBBFVJZ8mdVhQkFslmixn") none
        (SwapOutcome.success "txBug") (Except.ok 0) botInit).1.monitors =
      [{ ca := "7bYsgLcVSxQbbQcFnFeXqDMDBBFVJZ8mdVhQkFslmixn", symbol := "UNKNOWN",
         entry_price := 0,
         amount := pyInt (cfgDefault.tradeSolAmount * 1000000000) }] :=
  rfl

/-- C8 counterexample: on a failed buy (no route) the reply sent to the
user is the swap-layer message, which does not contain the token's
chain-address identifier anywhere as a substring, so the failure is not
reported with the identifier. -/
theorem handle_message_buy_failure_counterexample :
    (handle_message cfgDefault (some "GvbcH7sRErVar2DNcnNnaWRV35qV2U6mS3XTphvpbY6L") none
        SwapOutcome.noRoute (Except.ok 1) botInit).1.monitors = [] ∧
    (handle_message cfgDefault (some "GvbcH7sRErVar2DNcnNnaWRV35qV2U6mS3XTphvpbY6L") none
        SwapOutcome.noRoute (Except.ok 1) botInit).2 = ["No route for UNKNOWN BUY"] ∧
    ((handle_message cfgDefault (some "GvbcH7sRErVar2DNcnNnaWRV35qV2U6mS3XTphvpbY6L") none
        SwapOutcome.noRoute (Except.ok 1) botInit).2.all
      (fun m => !(occursIn "GvbcH7sRErVar2DNcnNnaWRV35qV2U6mS3XTphvpbY6L" m))) = true := by
  refine ⟨rfl, rfl, rfl⟩

/-- C8 amended: when the buy-side swap fails (no route, missing swap
transaction, or exception) no monitor task is spawned and the state is
unchanged, and the failure is reported to the user by relaying the swap
layer's message, which carries the display symbol and the failure reason
for the no-route and exception cases but never the chain-address
identifier. -/
theorem handle_message_buy_failure_report (cfg : Config) (ca : String)
    (symM : Option String) (pf : Except String ℚ) (st : BotState) (d : String) :
    handle_message cfg (some ca) symM SwapOutcome.noRoute pf st =
      (st, [(jupiter_swap SwapOutcome.noRoute (symbolOf symM) "BUY").2]) ∧
    handle_message cfg (some ca) symM (SwapOutcome.swapTxError d) pf st =
      (st, [(jupiter_swap (SwapOutcome.swapTxError d) (symbolOf symM) "BUY").2]) ∧
    handle_message cfg (some ca) symM (SwapOutcome.exn d) pf st =
      (st, [(jupiter_swap (SwapOutcome.exn d) (symbolOf symM) "BUY").2]) :=
  ⟨rfl, rfl, rfl⟩

/-- C9: a closed trade increments the win count exactly when the
realized percentage change is strictly positive, and otherwise
increments the loss count; in particular a realized change of exactly
zero increments the loss count and leaves the win count unchanged. -/
theorem closeTrade_win_loss_rule (cfg : Config) (sym : String) (entry price : ℚ)
    (r : ExitReason) (s : Stats) :
    (closeTrade cfg sym entry price r s).win_count =
      s.win_count + (if changePct entry price > 0 then 1 else 0) ∧
    (closeTrade cfg sym entry price r s).loss_count =
      s.loss_count + (if changePct entry price > 0 then 0 else 1) ∧
    (changePct entry price = 0 →
      (closeTrade cfg sym entry price r s).win_count = s.win_count ∧
      (closeTrade cfg sym entry price r s).loss_count = s.loss_count + 1) := by
  refine ⟨?_, ?_, ?_⟩
  · by_cases hp : changePct entry price > 0 <;> simp [closeTrade, hp]
  · by_cases hp : changePct entry price > 0 <;> simp [closeTrade, hp]
  · intro h0
    constructor <;> simp [closeTrade, h0]

/-- Witness for C9 at a flat trade: entry and exit price both 1, so the
realized change is exactly zero and the close counts as a loss. -/
theorem closeTrade_win_loss_rule_witness :
    (closeTrade cfgDefault "SYMG" 1 1 ExitReason.timeout statsInit).win_count =
      statsInit.win_count ∧
    (closeTrade cfgDefault "SYMG" 1 1 ExitReason.timeout statsInit).loss_count =
      statsInit.loss_count + 1 :=
  (closeTrade_win_loss_rule cfgDefault "SYMG" 1 1 ExitReason.timeout statsInit).2.2
    (by norm_num [changePct])

/-- C10: after any sequence of trade closes and daily-summary resets
starting from the initial statistics, the aggregate statistics remain
mutually consistent: the number of recorded trades equals wins plus
losses, and the cumulative pnl equals the sum of the per-trade profits
in the log. -/
theorem stats_consistency (events : List StatsEvent) :
    consistent (List.foldl applyEvent statsInit events) :=
  foldl_consistent events statsInit consistent_statsInit

end Solbot
